import Mathlib

/-!
Shallow embedding of the change-tracking and persistence core of the Sakai
announcement bot (src/sakai_bot.py), together with the configuration gate,
the orchestration in main, and the HTML-escaping applied to records on the
two collection paths.  Python dictionaries carrying announcements are
modelled by the structure AnnouncementRecord; dict.get("href") returning
None (key absent or value None) is modelled by Option String.  The JSON
store file is modelled by the Store type: the text (de)serialisation is
performed by Python's json library, so the store holds the parsed record
list, with a separate constructor for a file whose text the parser rejects.
-/

/-- One announcement dictionary: title, content, optional href (the
deduplication key; None models both an absent "href" key and a None value,
which dict.get does not distinguish) and timestamp. -/
structure AnnouncementRecord where
  title : String
  content : String
  href : Option String
  timestamp : String
deriving DecidableEq

/-- Python str.strip() with no argument: remove leading and trailing
whitespace. -/
def pyStrip (s : String) : String :=
  String.mk (((s.data.dropWhile Char.isWhitespace).reverse.dropWhile Char.isWhitespace).reverse)

/-- Python s[:n] on a string: the first n code points. -/
def pyTake (s : String) (n : Nat) : String :=
  String.mk (s.data.take n)

/-- The set of href keys collected from previous announcements by
find_new_announcements (sakai_bot.py lines 954-961): for each record,
dict.get("href") is tested with Python truthiness (`if href:`), so both a
missing/None href and an empty-string href are skipped. -/
def previousHrefs (previous : List AnnouncementRecord) : List String :=
  previous.filterMap fun a => a.href.bind fun h => if h = "" then none else some h

/-- find_new_announcements (sakai_bot.py lines 939-977): keep the records of
current whose dict.get("href") is not in the previous_hrefs set.  A None
href is never an element of a set of strings, so such records always pass. -/
def findNewAnnouncements (current previous : List AnnouncementRecord) :
    List AnnouncementRecord :=
  current.filter fun a =>
    match a.href with
    | none => true
    | some h => decide (h ∉ previousHrefs previous)

/-- The persisted store (duyurular.json).  `missing` models an absent file,
`corrupt` a file whose text json.load rejects, `stored` a file holding the
serialised record list.  The byte-level (de)serialisation is Python's json
library (an external collaborator); it round-trips the record fields. -/
inductive Store where
  | missing
  | corrupt
  | stored (records : List AnnouncementRecord)
deriving DecidableEq

/-- load_saved_announcements (sakai_bot.py lines 906-915): if the file does
not exist, fall through to `return []`; if reading or parsing raises, the
except clause logs and falls through to `return []`; otherwise return the
parsed list.  Total by construction: it never raises. -/
def loadSavedAnnouncements : Store → List AnnouncementRecord
  | Store.missing => []
  | Store.corrupt => []
  | Store.stored records => records

/-- save_announcements (sakai_bot.py lines 918-936): open the file for
writing and dump the list, replacing the prior content; any exception is
caught and logged inside the function (writeOk = false leaves the store
unchanged) and nothing propagates to the caller. -/
def saveAnnouncements (records : List AnnouncementRecord) (s : Store)
    (writeOk : Bool) : Store :=
  if writeOk then Store.stored records else s

/-- The persist step of main (sakai_bot.py lines 1021-1024): concatenate
previous and the new announcements and hand the result to
save_announcements, here on the successful-write path. -/
def persistAnnouncements (previous newOnes : List AnnouncementRecord)
    (s : Store) : Store :=
  saveAnnouncements (previous ++ newOnes) s true

/-- The four required configuration values after os.getenv(..., "").strip()
(sakai_bot.py lines 42-46). -/
structure Config where
  telegramToken : String
  telegramChatId : String
  sakaiUsername : String
  sakaiPassword : String
deriving DecidableEq

/-- Module-level environment loading: os.getenv returns None when the
variable is missing, the default "" replaces None, and the value is
stripped. -/
def configOfEnv (token chatId username password : Option String) : Config :=
  { telegramToken := pyStrip (token.getD "")
    telegramChatId := pyStrip (chatId.getD "")
    sakaiUsername := pyStrip (username.getD "")
    sakaiPassword := pyStrip (password.getD "") }

/-- validate_configuration (sakai_bot.py lines 57-71): false as soon as one
of the four required values is empty. -/
def validate_configuration (c : Config) : Bool :=
  c.telegramToken != "" && c.telegramChatId != "" &&
    c.sakaiUsername != "" && c.sakaiPassword != ""

/-- The escaping applied before a record is built on the notification-panel
path (sakai_bot.py lines 795-806): replace the ampersand first, then the
angle brackets.  The Python code uses str.replace with single-character
patterns; since none of the inserted entities contains a character that a
later pass rewrites, the three sequential passes equal this one-pass
character map. -/
def escapeHtml (s : String) : String :=
  String.join (s.data.map fun c =>
    if c = '&' then "&amp;"
    else if c = '<' then "&lt;"
    else if c = '>' then "&gt;"
    else String.singleton c)

/-- The record appended by fetch_from_notifications (sakai_bot.py lines
803-813): the title is truncated to 100 code points and then escaped, the
final message is escaped and then truncated to 2000 code points, and the
href is stored as the identifier. -/
def fetchFromNotificationsRecord (actualTitle finalMessage ts : String)
    (href : Option String) : AnnouncementRecord :=
  { title := escapeHtml (pyTake actualTitle 100)
    content := pyTake (escapeHtml finalMessage) 2000
    href := href
    timestamp := ts }

/-- The record appended by search_page_announcements (sakai_bot.py lines
888-892): title and content are stripped but not HTML-escaped, and no href
key is stored. -/
def searchPageRecord (title content ts : String) : AnnouncementRecord :=
  { title := pyStrip title
    content := pyStrip content
    href := none
    timestamp := ts }

/-- The externally visible side effects of one run, in order: WebDriver
initialisation (network: driver download / browser), the store read, the
portal fetch, each Telegram send, and the store write. -/
inductive Effect where
  | initDriver
  | readStore
  | fetchPortal
  | notifySend (title content : String)
  | writeStore
deriving DecidableEq

/-- The outcome of main (sakai_bot.py lines 980-1042): the boolean main
returns (mapped to the process exit status at line 1047), the resulting
store, the ordered effects, and the booleans returned by
send_telegram_notification, which main never inspects. -/
structure MainResult where
  success : Bool
  store : Store
  effects : List Effect
  sendResults : List Bool
deriving DecidableEq

/-- main (sakai_bot.py lines 980-1042).  Parameters stand for the external
collaborators: driverOk is whether get_webdriver succeeds (on failure main's
except clause returns False), fetched is the list produced by
fetch_announcements (its internal failures already yield []), notifier is
send_telegram_notification viewed through its (title, content) arguments,
and writeOk is whether the store write succeeds.  Control flow: validate
the configuration (return False before any other step if it fails), start
the driver, load the previous history, fetch, diff, notify each new record
in order ignoring the returned boolean, then save previous ++ newOnes. -/
def runMain (cfg : Config) (driverOk : Bool) (fetched : List AnnouncementRecord)
    (s : Store) (notifier : String → String → Bool) (writeOk : Bool) : MainResult :=
  if !validate_configuration cfg then
    { success := false, store := s, effects := [], sendResults := [] }
  else if !driverOk then
    { success := false, store := s, effects := [Effect.initDriver], sendResults := [] }
  else
    let previous := loadSavedAnnouncements s
    if fetched.isEmpty then
      { success := true, store := s
        effects := [Effect.initDriver, Effect.readStore, Effect.fetchPortal]
        sendResults := [] }
    else
      let newOnes := findNewAnnouncements fetched previous
      if newOnes.isEmpty then
        { success := true, store := s
          effects := [Effect.initDriver, Effect.readStore, Effect.fetchPortal]
          sendResults := [] }
      else
        { success := true
          store := saveAnnouncements (previous ++ newOnes) s writeOk
          effects := [Effect.initDriver, Effect.readStore, Effect.fetchPortal]
            ++ newOnes.map (fun a => Effect.notifySend a.title a.content)
            ++ [Effect.writeStore]
          sendResults := newOnes.map fun a => notifier a.title a.content }

/-- The __main__ guard (sakai_bot.py lines 1045-1047): sys.exit(0) when main
returned True, sys.exit(1) otherwise. -/
def exitStatus (r : MainResult) : Nat :=
  if r.success then 0 else 1

/-- Spec-literal reading of diffNew, for comparison with the code: drop
exactly the records whose href value occurs among the href values of
previous, keep every record whose href is absent. -/
def diffNewSpec (current previous : List AnnouncementRecord) :
    List AnnouncementRecord :=
  current.filter fun a =>
    match a.href with
    | none => true
    | some h => decide (h ∉ previous.filterMap fun b => b.href)

/-- The non-empty href values of previous, in order. -/
def nonEmptyHrefValues (previous : List AnnouncementRecord) : List String :=
  (previous.filterMap fun b => b.href).filter fun h => h != ""

/-- Amended spec reading of diffNew: deduplicate only against the non-empty
href values of previous. -/
def diffNewSpecAmended (current previous : List AnnouncementRecord) :
    List AnnouncementRecord :=
  current.filter fun a =>
    match a.href with
    | none => true
    | some h => decide (h ∉ nonEmptyHrefValues previous)

-- Sample records and configuration used by concrete witnesses.

def cfgOk : Config :=
  { telegramToken := "token", telegramChatId := "chat"
    sakaiUsername := "user", sakaiPassword := "pass" }

def rNoHref : AnnouncementRecord :=
  { title := "T", content := "C", href := none, timestamp := "ts" }

def rEmptyHref : AnnouncementRecord :=
  { title := "T", content := "C", href := some "", timestamp := "ts" }

def rA : AnnouncementRecord :=
  { title := "TA", content := "CA", href := some "a", timestamp := "ts" }

-- Helper lemmas about the deduplication set and the orchestration.

lemma mem_previousHrefs (h : String) (l : List AnnouncementRecord) :
    h ∈ previousHrefs l ↔ (h ≠ "" ∧ ∃ a ∈ l, a.href = some h) := by
  unfold previousHrefs
  rw [List.mem_filterMap]
  constructor
  · rintro ⟨a, ha, hEq⟩
    rcases Option.bind_eq_some.mp hEq with ⟨h0, hh0, hif⟩
    by_cases he : h0 = ""
    · simp [he] at hif
    · simp only [he, if_false] at hif
      cases hif
      exact ⟨he, a, ha, hh0⟩
  · rintro ⟨hne, a, ha, hh⟩
    exact ⟨a, ha, by simp [hh, hne]⟩

lemma empty_not_mem_previousHrefs (l : List AnnouncementRecord) :
    "" ∉ previousHrefs l :=
  fun hx => ((mem_previousHrefs "" l).mp hx).1 rfl

lemma previousHrefs_append (l1 l2 : List AnnouncementRecord) :
    previousHrefs (l1 ++ l2) = previousHrefs l1 ++ previousHrefs l2 := by
  simp [previousHrefs, List.filterMap_append]

lemma previousHrefs_eq_nonEmptyHrefValues (l : List AnnouncementRecord) :
    previousHrefs l = nonEmptyHrefValues l := by
  induction l with
  | nil => rfl
  | cons a t ih =>
    unfold previousHrefs nonEmptyHrefValues at ih ⊢
    cases ha : a.href with
    | none => simpa [ha] using ih
    | some h =>
      by_cases he : h = "" <;> simp [ha, he, ih]

lemma runMain_store_eq (cfg : Config) (driverOk : Bool)
    (fetched : List AnnouncementRecord) (s : Store)
    (notifier : String → String → Bool) (writeOk : Bool) :
    (runMain cfg driverOk fetched s notifier writeOk).store =
      if validate_configuration cfg && driverOk && !fetched.isEmpty &&
          !(findNewAnnouncements fetched (loadSavedAnnouncements s)).isEmpty &&
          writeOk
      then Store.stored (loadSavedAnnouncements s ++
        findNewAnnouncements fetched (loadSavedAnnouncements s))
      else s := by
  unfold runMain saveAnnouncements
  by_cases hv : validate_configuration cfg <;>
    by_cases hd : driverOk <;>
    by_cases hf : fetched.isEmpty <;>
    by_cases hn : (findNewAnnouncements fetched (loadSavedAnnouncements s)).isEmpty <;>
    by_cases hw : writeOk <;>
    simp [hv, hd, hf, hn, hw]

lemma runMain_success_eq (cfg : Config) (driverOk : Bool)
    (fetched : List AnnouncementRecord) (s : Store)
    (notifier : String → String → Bool) (writeOk : Bool) :
    (runMain cfg driverOk fetched s notifier writeOk).success =
      (validate_configuration cfg && driverOk) := by
  unfold runMain
  by_cases hv : validate_configuration cfg <;>
    by_cases hd : driverOk <;>
    by_cases hf : fetched.isEmpty <;>
    by_cases hn : (findNewAnnouncements fetched (loadSavedAnnouncements s)).isEmpty <;>
    simp [hv, hd, hf, hn]

lemma runMain_invalid (cfg : Config) (driverOk : Bool)
    (fetched : List AnnouncementRecord) (s : Store)
    (notifier : String → String → Bool) (writeOk : Bool)
    (h : validate_configuration cfg = false) :
    runMain cfg driverOk fetched s notifier writeOk =
      { success := false, store := s, effects := [], sendResults := [] } := by
  simp [runMain, h]

lemma count_filter_of_pos (p : AnnouncementRecord → Bool) (a : AnnouncementRecord)
    (hpa : p a = true) (l : List AnnouncementRecord) :
    (l.filter p).count a = l.count a := by
  induction l with
  | nil => rfl
  | cons b t ih =>
    by_cases hb : a = b
    · subst hb
      simp [List.filter_cons, hpa, List.count_cons, ih]
    · by_cases hpb : p b = true
      · simp [List.filter_cons, hpb, List.count_cons, ih, hb]
      · simp [List.filter_cons, hpb, List.count_cons, ih, hb]

/-- Claim C1 (counterexample): the claim fails as stated.  With a record
whose href is the empty string appearing in both lists, the empty string is
an href value of previous, so the claimed subsequence is empty, yet
find_new_announcements keeps the record because the set-building loop skips
falsy href values. -/
theorem diffNew_literal_spec_counterexample :
    findNewAnnouncements [rEmptyHref] [rEmptyHref] ≠
      diffNewSpec [rEmptyHref] [rEmptyHref] := by decide

/-- Claim C1 (amended): diffNew returns exactly the subsequence of current
whose href is not present in the set of non-empty href values of previous,
preserving order; records whose href is absent are always included. -/
theorem diffNew_eq_amended_spec (current previous : List AnnouncementRecord) :
    findNewAnnouncements current previous = diffNewSpecAmended current previous := by
  simp only [findNewAnnouncements, diffNewSpecAmended,
    previousHrefs_eq_nonEmptyHrefValues]

/-- Claim C2: persisting previous ++ newOnes and immediately loading yields
exactly previous ++ newOnes, in that order. -/
theorem persist_then_load_roundtrip (previous newOnes : List AnnouncementRecord)
    (s : Store) :
    loadSavedAnnouncements (persistAnnouncements previous newOnes s) =
      previous ++ newOnes := by
  simp [persistAnnouncements, saveAnnouncements, loadSavedAnnouncements]

/-- Claim C3: persist writes the concatenation previous ++ newOnes,
overwriting whatever the store held before; consequently, after any run of
main the loaded history extends the previously loaded history (append-only)
and its set of href values contains every previously stored href. -/
theorem persist_overwrites_and_history_grows :
    (∀ previous newOnes s, persistAnnouncements previous newOnes s =
      Store.stored (previous ++ newOnes)) ∧
    (∀ cfg driverOk fetched s notifier writeOk,
      (∃ t, loadSavedAnnouncements
          (runMain cfg driverOk fetched s notifier writeOk).store =
        loadSavedAnnouncements s ++ t) ∧
      ∀ h, h ∈ previousHrefs (loadSavedAnnouncements s) →
        h ∈ previousHrefs (loadSavedAnnouncements
          (runMain cfg driverOk fetched s notifier writeOk).store)) := by
  constructor
  · intro previous newOnes s
    simp [persistAnnouncements, saveAnnouncements]
  · intro cfg driverOk fetched s notifier writeOk
    rw [runMain_store_eq]
    split
    · constructor
      · exact ⟨findNewAnnouncements fetched (loadSavedAnnouncements s), rfl⟩
      · intro h hm
        show h ∈ previousHrefs (loadSavedAnnouncements s ++
          findNewAnnouncements fetched (loadSavedAnnouncements s))
        rw [previousHrefs_append]
        exact List.mem_append.mpr (Or.inl hm)
    · exact ⟨⟨[], by simp⟩, fun h hm => hm⟩

/-- Claim C3 (witness): the persist contract and the href-superset fact at
concrete inputs. -/
theorem persist_overwrites_and_history_grows_applied :
    persistAnnouncements [] [rA] Store.missing = Store.stored ([] ++ [rA]) ∧
    "a" ∈ previousHrefs (loadSavedAnnouncements
      (runMain cfgOk true [rA] (Store.stored [rA]) (fun _ _ => false) true).store) :=
  ⟨persist_overwrites_and_history_grows.1 [] [rA] Store.missing,
   (persist_overwrites_and_history_grows.2 cfgOk true [rA] (Store.stored [rA])
     (fun _ _ => false) true).2 "a" (by decide)⟩

/-- Claim C4: loading a missing or unparseable store yields the empty
history and cannot raise (loadSavedAnnouncements is total); with that empty
history every record of the current run is treated as new. -/
theorem load_missing_or_corrupt_empty :
    loadSavedAnnouncements Store.missing = [] ∧
    loadSavedAnnouncements Store.corrupt = [] ∧
    ∀ current, findNewAnnouncements current (loadSavedAnnouncements Store.missing) =
      current := by
  refine ⟨rfl, rfl, fun current => ?_⟩
  unfold findNewAnnouncements
  rw [List.filter_eq_self]
  intro a _
  cases ha : a.href with
  | none => rfl
  | some h => simp [loadSavedAnnouncements, previousHrefs]

/-- Claim C5 (counterexample): a record with no href that fails notification
does enter history, yet it is detected as new again on the next run and is
sent again, so "never retried on a later run" fails for href-less records. -/
theorem notify_failure_retry_counterexample :
    (runMain cfgOk true [rNoHref] Store.missing (fun _ _ => false) true).store =
      Store.stored [rNoHref] ∧
    rNoHref ∈ findNewAnnouncements [rNoHref] (loadSavedAnnouncements
      (runMain cfgOk true [rNoHref] Store.missing (fun _ _ => false) true).store) ∧
    Effect.notifySend rNoHref.title rNoHref.content ∈
      (runMain cfgOk true [rNoHref] (Store.stored [rNoHref])
        (fun _ _ => false) true).effects := by decide

/-- Claim C5 (amended): the persisted store never depends on the booleans
the notifier returns; with a valid configuration and a successful write,
every run with a non-empty diff persists previous ++ newOnes even when
every notification fails; and a persisted record with a non-empty href is
excluded from every later run's diff, while href-less (or empty-href)
records are re-reported regardless of the notification outcome. -/
theorem notifier_result_never_blocks_persistence
    (cfg : Config) (fetched : List AnnouncementRecord) (s : Store)
    (f g : String → String → Bool) (writeOk : Bool) :
    (runMain cfg true fetched s f writeOk).store =
      (runMain cfg true fetched s g writeOk).store ∧
    (validate_configuration cfg = true → writeOk = true →
      findNewAnnouncements fetched (loadSavedAnnouncements s) ≠ [] →
      (runMain cfg true fetched s f writeOk).store =
        Store.stored (loadSavedAnnouncements s ++
          findNewAnnouncements fetched (loadSavedAnnouncements s))) ∧
    (∀ a h, a ∈ findNewAnnouncements fetched (loadSavedAnnouncements s) →
      a.href = some h → h ≠ "" →
      ∀ b cur2, b.href = some h →
        b ∉ findNewAnnouncements cur2 (loadSavedAnnouncements s ++
          findNewAnnouncements fetched (loadSavedAnnouncements s))) := by
  refine ⟨?_, ?_, ?_⟩
  · rw [runMain_store_eq, runMain_store_eq]
  · intro hv hw hne
    subst hw
    have hfe : fetched.isEmpty = false := by
      rcases fetched with _ | ⟨a, t⟩
      · exact absurd rfl hne
      · rfl
    have hne' : (findNewAnnouncements fetched (loadSavedAnnouncements s)).isEmpty
        = false := by
      rcases hx : findNewAnnouncements fetched (loadSavedAnnouncements s) with _ | _
      · exact absurd hx hne
      · rfl
    rw [runMain_store_eq]
    simp [hv, hfe, hne']
  · intro a h ha hhref hne b cur2 hb hmem
    have hPrev : h ∈ previousHrefs (loadSavedAnnouncements s ++
        findNewAnnouncements fetched (loadSavedAnnouncements s)) := by
      rw [previousHrefs_append]
      exact List.mem_append.mpr (Or.inr
        ((mem_previousHrefs h _).mpr ⟨hne, a, ha, hhref⟩))
    unfold findNewAnnouncements at hmem
    rcases List.mem_filter.mp hmem with ⟨_, hpred⟩
    rw [hb] at hpred
    simp only [decide_eq_true_eq] at hpred
    exact hpred hPrev

/-- Claim C5 (witness): with an all-false notifier a record with href "a" is
persisted and is not detected as new on the next run. -/
theorem notifier_result_never_blocks_persistence_applied :
    (runMain cfgOk true [rA] Store.missing (fun _ _ => false) true).store =
      Store.stored (loadSavedAnnouncements Store.missing ++
        findNewAnnouncements [rA] (loadSavedAnnouncements Store.missing)) ∧
    rA ∉ findNewAnnouncements [rA] (loadSavedAnnouncements Store.missing ++
      findNewAnnouncements [rA] (loadSavedAnnouncements Store.missing)) :=
  ⟨(notifier_result_never_blocks_persistence cfgOk [rA] Store.missing
      (fun _ _ => false) (fun _ _ => true) true).2.1 (by decide) rfl (by decide),
   (notifier_result_never_blocks_persistence cfgOk [rA] Store.missing
      (fun _ _ => false) (fun _ _ => true) true).2.2 rA "a" (by decide) rfl
      (by decide) rA [rA] rfl⟩

/-- Claim C6: when a required environment value is missing or strips to the
empty string, the run exits with status 1 and performs no effect at all: no
driver start, no store read, no portal fetch, no notification, no store
write, and the store is untouched. -/
theorem missing_config_aborts_early
    (token chatId username password : Option String) (driverOk : Bool)
    (fetched : List AnnouncementRecord) (s : Store)
    (notifier : String → String → Bool) (writeOk : Bool)
    (hmiss : pyStrip (token.getD "") = "" ∨ pyStrip (chatId.getD "") = "" ∨
      pyStrip (username.getD "") = "" ∨ pyStrip (password.getD "") = "") :
    exitStatus (runMain (configOfEnv token chatId username password) driverOk
      fetched s notifier writeOk) = 1 ∧
    (runMain (configOfEnv token chatId username password) driverOk fetched s
      notifier writeOk).effects = [] ∧
    (runMain (configOfEnv token chatId username password) driverOk fetched s
      notifier writeOk).store = s := by
  have hv : validate_configuration (configOfEnv token chatId username password)
      = false := by
    rcases hmiss with h | h | h | h <;> simp [validate_configuration, configOfEnv, h]
  rw [runMain_invalid _ _ _ _ _ _ hv]
  simp [exitStatus]

/-- Claim C6 (witness): with the token variable unset the run exits with
status 1 and no effects. -/
theorem missing_config_aborts_early_applied :
    exitStatus (runMain (configOfEnv none (some "c") (some "u") (some "p")) true
      [] Store.missing (fun _ _ => true) true) = 1 ∧
    (runMain (configOfEnv none (some "c") (some "u") (some "p")) true []
      Store.missing (fun _ _ => true) true).effects = [] ∧
    (runMain (configOfEnv none (some "c") (some "u") (some "p")) true []
      Store.missing (fun _ _ => true) true).store = Store.missing :=
  missing_config_aborts_early none (some "c") (some "u") (some "p") true []
    Store.missing (fun _ _ => true) true (Or.inl (by decide))

/-- Claim C7: a failing store write leaves the store unchanged and nothing
propagates out of save_announcements (it is total), and a run with a valid
configuration still finishes with exit status 0 even when the write fails. -/
theorem store_write_failure_nonfatal :
    (∀ records s, saveAnnouncements records s false = s) ∧
    (∀ cfg fetched s notifier, validate_configuration cfg = true →
      exitStatus (runMain cfg true fetched s notifier false) = 0) := by
  constructor
  · intro records s
    rfl
  · intro cfg fetched s notifier hv
    simp [exitStatus, runMain_success_eq, hv]

/-- Claim C7 (witness): a failed write keeps the old store and the run exits
with status 0. -/
theorem store_write_failure_nonfatal_applied :
    saveAnnouncements [rA] (Store.stored [rNoHref]) false = Store.stored [rNoHref] ∧
    exitStatus (runMain cfgOk true [rA] Store.missing (fun _ _ => false) false) = 0 :=
  ⟨store_write_failure_nonfatal.1 [rA] (Store.stored [rNoHref]),
   store_write_failure_nonfatal.2 cfgOk [rA] Store.missing (fun _ _ => false)
     (by decide)⟩

/-- Claim C8 (code evaluated at the failing input): a record built by the
page-search fallback keeps its title verbatim, so a title containing a raw
angle bracket reaches the notifier unescaped, while the notification-panel
path does escape the same text.  This contradicts the caller guarantee
stated in send_telegram_notification's own docstring. -/
theorem search_page_records_reach_notifier_unescaped :
    (searchPageRecord "Duyuru <b>onemli</b> & acil" "icerik" "ts").title =
      "Duyuru <b>onemli</b> & acil" ∧
    ((searchPageRecord "Duyuru <b>onemli</b> & acil" "icerik" "ts").title.data.contains
      '<') = true ∧
    Effect.notifySend "Duyuru <b>onemli</b> & acil" "icerik" ∈
      (runMain cfgOk true
        [searchPageRecord "Duyuru <b>onemli</b> & acil" "icerik" "ts"]
        Store.missing (fun _ _ => false) true).effects ∧
    ((fetchFromNotificationsRecord "Duyuru <b>onemli</b> & acil" "icerik" "ts"
      (some "u")).title.data.contains '<') = false := by decide

/-- Claim C9: an empty-string href is skipped by the set-building step, so
it is never a member of the deduplication set, and a current record whose
href is the empty string is always included in the diff, exactly like a
record with no href. -/
theorem empty_href_behaves_like_missing
    (current previous : List AnnouncementRecord) (a : AnnouncementRecord) :
    "" ∉ previousHrefs previous ∧
    (a ∈ current → a.href = some "" → a ∈ findNewAnnouncements current previous) := by
  refine ⟨empty_not_mem_previousHrefs previous, fun hmem hhref => ?_⟩
  unfold findNewAnnouncements
  refine List.mem_filter.mpr ⟨hmem, ?_⟩
  rw [hhref]
  exact decide_eq_true (empty_not_mem_previousHrefs previous)

/-- Claim C9 (witness): a record with an empty href survives the diff even
when the very same record is already in the history. -/
theorem empty_href_behaves_like_missing_applied :
    "" ∉ previousHrefs [rEmptyHref] ∧
    rEmptyHref ∈ findNewAnnouncements [rEmptyHref] [rEmptyHref] :=
  ⟨(empty_href_behaves_like_missing [rEmptyHref] [rEmptyHref] rEmptyHref).1,
   (empty_href_behaves_like_missing [rEmptyHref] [rEmptyHref] rEmptyHref).2
     (by decide) rfl⟩

/-- Claim C10: the diff never deduplicates inside current: a record whose
href is not in the deduplication set occurs in the diff exactly as often as
in current, and the persisted history previous ++ newOnes then holds all
those occurrences on top of whatever previous held. -/
theorem duplicate_hrefs_within_current_kept
    (current previous : List AnnouncementRecord) (a : AnnouncementRecord)
    (h : String) (hhref : a.href = some h) (hnew : h ∉ previousHrefs previous) :
    (findNewAnnouncements current previous).count a = current.count a ∧
    (loadSavedAnnouncements (persistAnnouncements previous
      (findNewAnnouncements current previous) Store.missing)).count a =
      previous.count a + current.count a := by
  have h1 : (findNewAnnouncements current previous).count a = current.count a := by
    unfold findNewAnnouncements
    exact count_filter_of_pos _ a (by rw [hhref]; exact decide_eq_true hnew) current
  refine ⟨h1, ?_⟩
  simp [persistAnnouncements, saveAnnouncements, loadSavedAnnouncements,
    List.count_append, h1]

/-- Claim C10 (witness): a current list holding the same href-"a" record
twice yields a diff and a persisted history holding it twice. -/
theorem duplicate_hrefs_within_current_kept_applied :
    (findNewAnnouncements [rA, rA] []).count rA = [rA, rA].count rA ∧
    (loadSavedAnnouncements (persistAnnouncements []
      (findNewAnnouncements [rA, rA] []) Store.missing)).count rA =
      ([] : List AnnouncementRecord).count rA + [rA, rA].count rA :=
  duplicate_hrefs_within_current_kept [rA, rA] [] rA "a" rfl (by decide)
